import Mathlib

/-!
# Product resource service (package `product`) — verification development

A shallow embedding of `src/product/product.data.go` (the product repository)
and `src/product/product.service.go` (the HTTP resource handlers).

Modelling conventions

* Go `string` is `String`; Go `int` is `Int` (the only arithmetic on it is the
  range check inside `strconv.Atoi`, which is modelled explicitly for 64 bits).
* Go `error` is `Option GoError` (`none` is `nil`).
* The process-wide handle `database.DbConn` is a value of type `DB`: for every
  statement it says what the store answers.  Each repository operation returns
  its Go result together with the list of `Event`s it produced: one `call`
  event when it is entered and one `stmt` event per statement handed to the
  store.
* `http.ResponseWriter` is the record `ResponseWriter` (status line sent so far
  and body written so far); a handler returns an `Outcome`.
* Library behaviour the package relies on (`strings.Split`, `strconv.Atoi`,
  `fmt.Sprintf`, `encoding/json`) is modelled next to its use.  Log output is
  not part of the state, except that `log.Fatal` sets `Outcome.fatal`.
-/

namespace Services

/-! ## Values shared by both files -/

/-- Go `error` values that the package can tell apart: the sentinel
`sql.ErrNoRows` and every other error (identified by its message). -/
inductive GoError where
  | ErrNoRows : GoError
  | msg : String → GoError
  deriving DecidableEq, Repr

/-- Modelled from the spec: the `Product` type declaration, which is not among
the sources (spec section 3: ProductID integer, Manufacturer/Sku/Upc/ProductName
free text, PricePerUnit fixed-point with two fractional digits held here as a
number of hundredths, QuantityOnHand integer). -/
structure Product where
  ProductID : Int
  Manufacturer : String
  Sku : String
  Upc : String
  PricePerUnit : Int
  QuantityOnHand : Int
  ProductName : String
  deriving DecidableEq, Repr

/-- Modelled from the spec: the `ProductReportFilter` type declaration, which is
not among the sources (spec section 3: three optional substring filters; the
field names are those used by `searchForProductData`). -/
structure ProductReportFilter where
  NameFilter : String
  ManufacturerFilter : String
  SKUFilter : String
  deriving DecidableEq, Repr

/-- The zero value of `Product` (`var product Product`, `&Product{}`). -/
def Product.zero : Product :=
  ⟨0, "", "", "", 0, 0, ""⟩

/-! ## Library functions -/

/-- Worker of `strings.Split` for a non-empty separator, on characters.
`skip` counts the characters of a separator occurrence that are still to be
consumed; `cur` is the part being collected, reversed.  At each position outside
a separator the leftmost occurrence is looked for, as `strings.Index` does. -/
def splitAux (sep : List Char) : List Char → Nat → List Char → List (List Char)
  | [], _, cur => [cur.reverse]
  | _ :: cs, skip + 1, cur => splitAux sep cs skip cur
  | c :: cs, 0, cur =>
    if sep.isPrefixOf (c :: cs) then
      cur.reverse :: splitAux sep cs (sep.length - 1) []
    else
      splitAux sep cs 0 (c :: cur)

/-- Go `strings.Split(s, sep)`: with an empty separator the string is exploded
into its characters (and the empty string gives no part at all); otherwise the
parts between the non-overlapping occurrences of `sep`, found left to right. -/
def strings_Split (s sep : String) : List String :=
  if sep.data = [] then
    s.data.map (fun c => String.mk [c])
  else
    (splitAux sep.data s.data 0 []).map String.mk

/-- Go slice expression `xs[1:]`: a run-time panic (here `none`) when the low
bound exceeds the length. -/
def sliceFrom1 {α : Type} (xs : List α) : Option (List α) :=
  if 1 ≤ xs.length then some (xs.drop 1) else none

/-- Go index expression `xs[i]` with a signed index: a run-time panic (here
`none`) when `i` is negative or not below the length. -/
def indexAt {α : Type} (xs : List α) (i : Int) : Option α :=
  if 0 ≤ i ∧ i < (xs.length : Int) then xs.get? i.toNat else none

/-- Value of a decimal digit, `none` for any other character. -/
def digitVal (c : Char) : Option Nat :=
  if 48 ≤ c.toNat ∧ c.toNat ≤ 57 then some (c.toNat - 48) else none

/-- Accumulate decimal digits; `none` as soon as a character is not a digit. -/
def parseDigits : List Char → Nat → Option Nat
  | [], acc => some acc
  | c :: cs, acc =>
    match digitVal c with
    | none => none
    | some d => parseDigits cs (acc * 10 + d)

/-- Go `strconv.Atoi` on a 64-bit platform: an optional single sign, then at
least one decimal digit and nothing else, and the value must fit in `int`;
anything else is an error. -/
def strconv_Atoi (s : String) : Except GoError Int :=
  let synErr : Except GoError Int := .error (.msg "strconv.Atoi: invalid syntax")
  let rngErr : Except GoError Int := .error (.msg "strconv.Atoi: value out of range")
  let body (neg : Bool) (ds : List Char) : Except GoError Int :=
    match ds with
    | [] => synErr
    | _ :: _ =>
      match parseDigits ds 0 with
      | none => synErr
      | some n =>
        if neg then
          if n > 2 ^ 63 then rngErr else .ok (-(n : Int))
        else
          if n ≥ 2 ^ 63 then rngErr else .ok (n : Int)
  match s.data with
  | [] => synErr
  | c :: cs =>
    if c = '-' then body true cs
    else if c = '+' then body false cs
    else body false (c :: cs)

/-- Go `fmt.Sprintf("%d", n)` for an `int`. -/
def fmt_d (n : Int) : String :=
  if n < 0 then "-" ++ Nat.repr n.natAbs else Nat.repr n.natAbs

/-- Go `strings.ToLower`, on the ASCII letters (on other characters Go applies
the Unicode lower-case mapping; the two agree on ASCII text). -/
def strings_ToLower (s : String) : String :=
  String.mk (s.data.map Char.toLower)


/-! ## The store -/

/-- A bound statement argument (`interface{}` holding an `int` or a `string`). -/
inductive Arg where
  | int : Int → Arg
  | str : String → Arg
  deriving DecidableEq, Repr

/-- One statement handed to `database.DbConn`: the deadline of its context in
seconds, its text and its bound arguments in order. -/
structure Stmt where
  timeout : Nat
  query : String
  args : List Arg
  deriving DecidableEq, Repr

/-- What one `results.Scan(...)` call does: the destination product as the call
leaves it, and the error it returns. -/
structure RowScan where
  product : Product
  err : Option GoError
  deriving DecidableEq, Repr

/-- A `*sql.Rows` as the loop sees it: one entry per iteration for which
`Next()` is true, and the value of `Err()` once `Next()` is false (a row that
could not be fetched, or the deadline expiring during the iteration). -/
structure Rows where
  scans : List RowScan
  err : Option GoError
  deriving DecidableEq, Repr

/-- The store behind `database.DbConn`. `QueryRowScanProduct` and
`QueryRowScanInt` give the result of `QueryRowContext(...).Scan(...)` into the
seven product fields, respectively into one `int`. -/
structure DB where
  QueryRowScanProduct : Stmt → Except GoError Product
  QueryRowScanInt : Stmt → Except GoError Int
  ExecContext : Stmt → Option GoError
  QueryContext : Stmt → Except GoError Rows

/-- The repository operations of `product.data.go`, with their arguments. -/
inductive RepoOp where
  | getProduct : Int → RepoOp
  | removeProduct : Int → RepoOp
  | getProductList : RepoOp
  | updateProduct : Product → RepoOp
  | insertProduct : Product → RepoOp
  | GetTopTenProducts : RepoOp
  | searchForProductData : ProductReportFilter → RepoOp
  deriving DecidableEq, Repr

/-- Observable steps: a repository operation is entered, a statement is handed
to the store. -/
inductive Event where
  | call : RepoOp → Event
  | stmt : Stmt → Event
  deriving DecidableEq, Repr

/-- The statements among a list of events. -/
def stmtsOf : List Event → List Stmt
  | [] => []
  | Event.stmt s :: es => s :: stmtsOf es
  | Event.call _ :: es => stmtsOf es

/-- The repository operations entered among a list of events. -/
def callsOf : List Event → List RepoOp
  | [] => []
  | Event.call o :: es => o :: callsOf es
  | Event.stmt _ :: es => callsOf es

/-! ## product.data.go -/

/-- Statement of `getProduct` (lines 17-26). -/
def getProductStmt (productID : Int) : Stmt :=
  ⟨15, "SELECT \n\tproductId, \n\tmanufacturer, \n\tsku, \n\tupc, \n\tpricePerUnit, \n\tquantityOnHand, \n\tproductName \n\tFROM products \n\tWHERE productId = $1",
    [Arg.int productID]⟩

/-- Go `getProduct` (lines 13-46): `(*Product, error)`. -/
def getProduct (db : DB) (productID : Int) : (Option Product × Option GoError) × List Event :=
  let st := getProductStmt productID
  let tr := [Event.call (RepoOp.getProduct productID), Event.stmt st]
  match db.QueryRowScanProduct st with
  | .error err =>
    if err = GoError.ErrNoRows then ((none, none), tr)
    else ((none, some err), tr)
  | .ok product => ((some product, none), tr)

/-- Statement of `removeProduct` (line 52). -/
def removeProductStmt (productID : Int) : Stmt :=
  ⟨3, "DELETE FROM products where productId = $1", [Arg.int productID]⟩

/-- Go `removeProduct` (lines 48-59). -/
def removeProduct (db : DB) (productID : Int) : Option GoError × List Event :=
  let st := removeProductStmt productID
  let tr := [Event.call (RepoOp.removeProduct productID), Event.stmt st]
  match db.ExecContext st with
  | some err => (some err, tr)
  | none => (none, tr)

/-- The row loop shared by the three multi-row operations (lines 80-92, 177-189,
233-245): every iteration appends the destination product, whatever `Scan`
returned; `Err()` is not consulted. -/
def scanAll : List RowScan → List Product → List Product
  | [], products => products
  | r :: rs, products => scanAll rs (products ++ [r.product])

/-- Statement of `getProductList` (lines 65-74). -/
def getProductListStmt : Stmt :=
  ⟨3, "SELECT  \n\tproductId, \n\tmanufacturer, \n\tsku, \n\tupc, \n\tpricePerUnit, \n\tquantityOnHand, \n\tproductName \n\tFROM products\n\tORDER BY productId",
    []⟩

/-- Go `getProductList` (lines 61-94): `([]Product, error)`; `none` is the nil
slice. -/
def getProductList (db : DB) : (Option (List Product) × Option GoError) × List Event :=
  let tr := [Event.call RepoOp.getProductList, Event.stmt getProductListStmt]
  match db.QueryContext getProductListStmt with
  | .error err => ((none, some err), tr)
  | .ok results => ((some (scanAll results.scans []), none), tr)

/-- Statement of `updateProduct` (lines 103-117). -/
def updateProductStmt (product : Product) : Stmt :=
  ⟨3, "UPDATE products SET \n\t\tmanufacturer=$1, \n\t\tsku=$2, \n\t\tupc=$3, \n\t\tpricePerUnit=CAST($4 AS DECIMAL(13,2)), \n\t\tquantityOnHand=$5, \n\t\tproductName=$6\n\t\tWHERE productId=$7",
    [Arg.str product.Manufacturer, Arg.str product.Sku, Arg.str product.Upc,
     Arg.int product.PricePerUnit, Arg.int product.QuantityOnHand,
     Arg.str product.ProductName, Arg.int product.ProductID]⟩

/-- Go `updateProduct` (lines 96-123). -/
def updateProduct (db : DB) (product : Product) : Option GoError × List Event :=
  if product.ProductID = 0 then
    (some (GoError.msg "product has invalid ID"), [Event.call (RepoOp.updateProduct product)])
  else
    let st := updateProductStmt product
    let tr := [Event.call (RepoOp.updateProduct product), Event.stmt st]
    match db.ExecContext st with
    | some err => (some err, tr)
    | none => (none, tr)

/-- Statement of `insertProduct` (lines 128-143). -/
def insertProductStmt (product : Product) : Stmt :=
  ⟨3, "INSERT INTO products  \n\t(manufacturer, \n\tsku, \n\tupc, \n\tpricePerUnit, \n\tquantityOnHand, \n\tproductName) \n\tVALUES ($1, $2, $3, $4, $5, $6) \n\t\tRETURNING productId",
    [Arg.str product.Manufacturer, Arg.str product.Sku, Arg.str product.Upc,
     Arg.int product.PricePerUnit, Arg.int product.QuantityOnHand,
     Arg.str product.ProductName]⟩

/-- Go `insertProduct` (lines 124-157): `(int, error)`. -/
def insertProduct (db : DB) (product : Product) : (Int × Option GoError) × List Event :=
  let st := insertProductStmt product
  let tr := [Event.call (RepoOp.insertProduct product), Event.stmt st]
  match db.QueryRowScanInt st with
  | .error err =>
    if err = GoError.ErrNoRows then ((0, none), tr)
    else ((0, some err), tr)
  | .ok productId => ((productId, none), tr)

/-- Statement of `GetTopTenProducts` (lines 162-171). -/
def topTenStmt : Stmt :=
  ⟨3, "SELECT \n\tproductId, \n\tmanufacturer, \n\tsku, \n\tupc, \n\tpricePerUnit, \n\tquantityOnHand, \n\tproductName \n\tFROM products ORDER BY quantityOnHand DESC LIMIT 10\n\t",
    []⟩

/-- Go `GetTopTenProducts` (lines 159-191). -/
def GetTopTenProducts (db : DB) : (Option (List Product) × Option GoError) × List Event :=
  let tr := [Event.call RepoOp.GetTopTenProducts, Event.stmt topTenStmt]
  match db.QueryContext topTenStmt with
  | .error err => ((none, some err), tr)
  | .ok results => ((some (scanAll results.scans []), none), tr)

/-- The text first written to the builder by `searchForProductData`
(lines 199-207); it ends in `WHERE `. -/
def searchHead : String :=
  "SELECT \n\t\tproductId, \n\t\tLOWER(manufacturer), \n\t\tLOWER(sku), \n\t\tupc, \n\t\tpricePerUnit, \n\t\tquantityOnHand, \n\t\tLOWER(productName) \n\t\tFROM products WHERE "

/-- The substring pattern bound for a filter value: `"%"+strings.ToLower(v)+"%"`. -/
def likePattern (v : String) : Arg :=
  Arg.str ("%" ++ strings_ToLower v ++ "%")

/-- Lines 208-211 of `searchForProductData`, on the builder text and `queryArgs`. -/
def searchStepName (productFilter : ProductReportFilter) (b : String × List Arg) :
    String × List Arg :=
  if productFilter.NameFilter ≠ "" then
    (b.1 ++ "productName ILIKE $1 ", b.2 ++ [likePattern productFilter.NameFilter])
  else b

/-- Lines 212-218 of `searchForProductData`. -/
def searchStepManufacturer (productFilter : ProductReportFilter) (b : String × List Arg) :
    String × List Arg :=
  if productFilter.ManufacturerFilter ≠ "" then
    let q := if b.2.length > 0 then b.1 ++ " AND " else b.1
    (q ++ "manufacturer ILIKE $2 ", b.2 ++ [likePattern productFilter.ManufacturerFilter])
  else b

/-- Lines 219-225 of `searchForProductData`. -/
def searchStepSKU (productFilter : ProductReportFilter) (b : String × List Arg) :
    String × List Arg :=
  if productFilter.SKUFilter ≠ "" then
    let q := if b.2.length > 0 then b.1 ++ " AND " else b.1
    (q ++ "sku ILIKE $3 ", b.2 ++ [likePattern productFilter.SKUFilter])
  else b

/-- The statement `searchForProductData` hands to the store (lines 197-227). -/
def searchStmt (productFilter : ProductReportFilter) : Stmt :=
  let b := searchStepSKU productFilter
    (searchStepManufacturer productFilter
      (searchStepName productFilter (searchHead, [])))
  ⟨3, b.1, b.2⟩

/-- Go `searchForProductData` (lines 193-247). -/
def searchForProductData (db : DB) (productFilter : ProductReportFilter) :
    (Option (List Product) × Option GoError) × List Event :=
  let st := searchStmt productFilter
  let tr := [Event.call (RepoOp.searchForProductData productFilter), Event.stmt st]
  match db.QueryContext st with
  | .error err => ((none, some err), tr)
  | .ok results => ((some (scanAll results.scans []), none), tr)

/-! ## product.service.go -/

/-- The constant `productsPath`. -/
def productsPath : String := "products"

/-- An `http.ResponseWriter`: the status code of the header once it has been
sent, and the body bytes delivered so far. -/
structure ResponseWriter where
  wroteHeader : Option Nat
  body : String
  deriving DecidableEq, Repr

/-- The writer a handler starts with. -/
def ResponseWriter.fresh : ResponseWriter :=
  ⟨none, ""⟩

/-- Go `w.WriteHeader(code)`: sends the header once; a later call changes
nothing. -/
def ResponseWriter.WriteHeader (w : ResponseWriter) (code : Nat) : ResponseWriter :=
  match w.wroteHeader with
  | none => ⟨some code, w.body⟩
  | some _ => w

/-- Go `w.Write(b)`: sends the header with status 200 if none was sent, then the
bytes; `writeErr` is the error the connection reports (`none`: all delivered). -/
def ResponseWriter.Write (w : ResponseWriter) (writeErr : Option GoError) (b : String) :
    ResponseWriter × Option GoError :=
  let w1 := w.WriteHeader 200
  match writeErr with
  | none => (⟨w1.wroteHeader, w1.body ++ b⟩, none)
  | some e => (w1, some e)

/-- The part of an `*http.Request` the handlers read. -/
structure Request where
  Method : String
  Path : String
  Body : String
  deriving DecidableEq, Repr

/-- What a handler runs against: the store, `encoding/json` for the `Product`
declaration (which is not among the sources) as decoder of a request body and
as encoders of one product and of a product slice, and the error (if any) that
writing to the connection reports. -/
structure Env where
  db : DB
  Decode : String → Except GoError Product
  MarshalProduct : Product → Except GoError String
  MarshalList : Option (List Product) → Except GoError String
  writeErr : Option GoError

/-- A finished handler run: the writer, the events in order, and whether
`log.Fatal` ended the process. -/
structure Outcome where
  w : ResponseWriter
  trace : List Event
  fatal : Bool
  deriving DecidableEq, Repr

/-- The status code of the response: the one sent, or 200 when the handler
returned without sending a header. -/
def Outcome.status (o : Outcome) : Nat :=
  o.w.wroteHeader.getD 200

/-- Go `handleProducts` (lines 16-56). -/
def handleProducts (env : Env) (r : Request) : Outcome :=
  let w := ResponseWriter.fresh
  if r.Method = "GET" then
    let res := getProductList env.db
    match res.1.2 with
    | some _ => ⟨w.WriteHeader 500, res.2, false⟩
    | none =>
      match env.MarshalList res.1.1 with
      | .error _ => ⟨w, res.2, true⟩
      | .ok j =>
        let wr := w.Write env.writeErr j
        match wr.2 with
        | some _ => ⟨wr.1, res.2, true⟩
        | none => ⟨wr.1, res.2, false⟩
  else if r.Method = "POST" then
    match env.Decode r.Body with
    | .error _ => ⟨w.WriteHeader 400, [], false⟩
    | .ok product =>
      let res := insertProduct env.db product
      if res.1.2 ≠ none ∨ res.1.1 = 0 then
        ⟨w.WriteHeader 500, res.2, false⟩
      else
        let w1 := w.WriteHeader 201
        let wr := w1.Write env.writeErr ("\x7b\"productId\":" ++ fmt_d res.1.1 ++ "\x7d")
        match wr.2 with
        | some _ => ⟨wr.1.WriteHeader 500, res.2, false⟩
        | none => ⟨wr.1, res.2, false⟩
  else if r.Method = "OPTIONS" then
    ⟨w, [], false⟩
  else
    ⟨w.WriteHeader 405, [], false⟩

/-- The method switch of `handleProduct` (lines 70-121), entered with the
parsed `productID`. -/
def handleProductMethod (env : Env) (r : Request) (productID : Int) : Outcome :=
  let w := ResponseWriter.fresh
  if r.Method = "GET" then
    let res := getProduct env.db productID
    match res.1.2 with
    | some _ => ⟨w.WriteHeader 500, res.2, false⟩
    | none =>
      match res.1.1 with
      | none => ⟨w.WriteHeader 404, res.2, false⟩
      | some product =>
        match env.MarshalProduct product with
        | .error _ => ⟨w.WriteHeader 400, res.2, false⟩
        | .ok j =>
          let wr := w.Write env.writeErr j
          match wr.2 with
          | some _ => ⟨wr.1, res.2, true⟩
          | none => ⟨wr.1, res.2, false⟩
  else if r.Method = "PUT" then
    match env.Decode r.Body with
    | .error _ => ⟨w.WriteHeader 400, [], false⟩
    | .ok product =>
      if product.ProductID ≠ productID then
        ⟨w.WriteHeader 400, [], false⟩
      else
        let res := updateProduct env.db product
        match res.1 with
        | some _ => ⟨w.WriteHeader 400, res.2, false⟩
        | none => ⟨w, res.2, false⟩
  else if r.Method = "DELETE" then
    let res := removeProduct env.db productID
    match res.1 with
    | some _ => ⟨w.WriteHeader 500, res.2, false⟩
    | none => ⟨w, res.2, false⟩
  else if r.Method = "OPTIONS" then
    ⟨w, [], false⟩
  else
    ⟨w.WriteHeader 405, [], false⟩

/-- Go `handleProduct` (lines 58-122); `none` is a run-time panic of the slice
or index expression. -/
def handleProduct (env : Env) (r : Request) : Option Outcome :=
  let w := ResponseWriter.fresh
  let urlPathSegments := strings_Split r.Path (productsPath ++ "/")
  match sliceFrom1 urlPathSegments with
  | none => none
  | some rest =>
    if rest.length > 1 then
      some ⟨w.WriteHeader 400, [], false⟩
    else
      match indexAt urlPathSegments ((urlPathSegments.length : Int) - 1) with
      | none => none
      | some seg =>
        match strconv_Atoi seg with
        | .error _ => some ⟨w.WriteHeader 404, [], false⟩
        | .ok productID => some (handleProductMethod env r productID)

/-! ## Sample environments -/

/-- A product used in the examples. -/
def sampleProduct : Product :=
  ⟨5, "Acme", "SKU-5", "0005", 1999, 3, "Widget"⟩

/-- A store that finds `sampleProduct` under every key, assigns the ID 8 to
every insert, accepts every update and delete, and lists one product. -/
def okDB : DB :=
  ⟨fun _ => .ok sampleProduct, fun _ => .ok 8, fun _ => none,
   fun _ => .ok ⟨[⟨sampleProduct, none⟩], none⟩⟩

/-- A store whose queries are accepted but whose rows cannot be read: the one
row delivered fails to scan (the destination keeps its zero value) and the
iteration then stops on an expired deadline. -/
def brokenRowsDB : DB :=
  ⟨fun _ => .error (GoError.msg "context deadline exceeded"),
   fun _ => .error (GoError.msg "context deadline exceeded"),
   fun _ => some (GoError.msg "context deadline exceeded"),
   fun _ => .ok ⟨[⟨Product.zero, some (GoError.msg "sql: Scan error on column index 0")⟩],
                 some (GoError.msg "context deadline exceeded")⟩⟩

/-- An environment over `okDB` whose decoder reads every body as the product
with ID 7 and whose encoders and connection never fail. -/
def okEnv : Env :=
  ⟨okDB, fun _ => .ok ⟨7, "Acme", "SKU-7", "0007", 250, 1, "Gadget"⟩,
   fun _ => .ok "P", fun _ => .ok "L", none⟩

/-- An environment over `okDB` whose decoder rejects every body. -/
def badJsonEnv : Env :=
  ⟨okDB, fun _ => .error (GoError.msg "invalid character"),
   fun _ => .ok "P", fun _ => .ok "L", none⟩

/-- A store that reports `sql.ErrNoRows` for every single-row query, accepts
every update and delete, and lists no product. -/
def emptyDB : DB :=
  ⟨fun _ => .error GoError.ErrNoRows, fun _ => .error GoError.ErrNoRows, fun _ => none,
   fun _ => .ok ⟨[], none⟩⟩

/-- An environment over `emptyDB` with the decoder and encoders of `okEnv`. -/
def emptyEnv : Env :=
  ⟨emptyDB, fun _ => .ok ⟨7, "Acme", "SKU-7", "0007", 250, 1, "Gadget"⟩,
   fun _ => .ok "P", fun _ => .ok "L", none⟩

/-- An environment over `brokenRowsDB`, whose single-row queries fail on an
expired deadline, with the decoder and encoders of `okEnv`. -/
def brokenEnv : Env :=
  ⟨brokenRowsDB, fun _ => .ok ⟨7, "Acme", "SKU-7", "0007", 250, 1, "Gadget"⟩,
   fun _ => .ok "P", fun _ => .ok "L", none⟩

/-! ## The search predicate as the specification words it -/

/-- The clauses contributed by the non-empty filter fields, in the fixed order
name, manufacturer, SKU: one per non-empty field, none for an empty one. -/
def specClauses (productFilter : ProductReportFilter) : List String :=
  (if productFilter.NameFilter ≠ "" then ["productName ILIKE $1 "] else []) ++
  ((if productFilter.ManufacturerFilter ≠ "" then ["manufacturer ILIKE $2 "] else []) ++
   (if productFilter.SKUFilter ≠ "" then ["sku ILIKE $3 "] else []))

/-- The number of non-empty filter fields. -/
def nonEmptyFields (productFilter : ProductReportFilter) : Nat :=
  (if productFilter.NameFilter ≠ "" then 1 else 0) +
  ((if productFilter.ManufacturerFilter ≠ "" then 1 else 0) +
   (if productFilter.SKUFilter ≠ "" then 1 else 0))

/-- The numbers `k` of the positional placeholders `$k` in a statement text, in
order of appearance (`$` followed by decimal digits). -/
def placeholdersAux : List Char → Option Nat → List Nat
  | [], none => []
  | [], some k => [k]
  | c :: cs, none => if c = '$' then placeholdersAux cs (some 0) else placeholdersAux cs none
  | c :: cs, some k =>
    match digitVal c with
    | some d => placeholdersAux cs (some (k * 10 + d))
    | none =>
      if c = '$' then k :: placeholdersAux cs (some 0) else k :: placeholdersAux cs none

/-- The placeholder numbers of a statement text. -/
def placeholders (query : String) : List Nat :=
  placeholdersAux query.data none

/-! ## Item paths -/

/-- A request path that `handleProduct` accepts as naming the item `id`: the
split on `products/` has at most two parts and `strconv.Atoi` reads `id` from
the last one. -/
def itemPath (path : String) (id : Int) : Prop :=
  (strings_Split path "products/").length ≤ 2 ∧
    ∃ seg, (strings_Split path "products/").getLast? = some seg ∧ strconv_Atoi seg = .ok id

/-! ## Lemmas on the library functions -/

/-- The separator `handleProduct` splits on. -/
theorem productsPath_slash : productsPath ++ "/" = "products/" := by decide

/-- For a non-empty separator the worker always returns at least one part. -/
theorem splitAux_length_pos (sep : List Char) :
    ∀ (s : List Char) (skip : Nat) (cur : List Char), 1 ≤ (splitAux sep s skip cur).length
  | [], _, _ => by simp [splitAux]
  | _ :: cs, skip + 1, cur => by
    simpa [splitAux] using splitAux_length_pos sep cs skip cur
  | c :: cs, 0, cur => by
    unfold splitAux
    split
    · simp
    · exact splitAux_length_pos sep cs 0 (c :: cur)

/-- Splitting on `products/` gives at least one part. -/
theorem split_products_length_pos (path : String) :
    1 ≤ (strings_Split path "products/").length := by
  have h : ¬ ("products/" : String).data = [] := by decide
  simp only [strings_Split, if_neg h, List.length_map]
  exact splitAux_length_pos _ _ _ _

/-- Without an occurrence of the separator the worker returns the input whole. -/
theorem splitAux_no_sep (sep : List Char) :
    ∀ (s cur : List Char), ¬ sep <:+: s → splitAux sep s 0 cur = [cur.reverse ++ s]
  | [], cur, _ => by simp [splitAux]
  | c :: cs, cur, h => by
    have h1 : ¬ sep.isPrefixOf (c :: cs) = true := fun hc =>
      h (List.isPrefixOf_iff_prefix.mp hc).isInfix
    have h2 : ¬ sep <:+: cs := fun hi =>
      h (hi.trans (List.suffix_cons c cs).isInfix)
    simp [splitAux, h1, splitAux_no_sep sep cs (c :: cur) h2]

/-- The signed index `len-1` selects the last element of a non-empty list. -/
theorem indexAt_last {α : Type} (xs : List α) (h : 1 ≤ xs.length) :
    indexAt xs ((xs.length : Int) - 1) = xs.getLast? := by
  have h1 : (0 : Int) ≤ (xs.length : Int) - 1 ∧ (xs.length : Int) - 1 < (xs.length : Int) := by
    omega
  have h2 : ((xs.length : Int) - 1).toNat = xs.length - 1 := by omega
  simp only [indexAt, if_pos h1, h2, List.getLast?_eq_getElem?, List.get?_eq_getElem?]

/-- On an item path the handler reaches its method switch with the parsed id. -/
theorem handleProduct_of_itemPath (env : Env) (r : Request) (id : Int)
    (h : itemPath r.Path id) :
    handleProduct env r = some (handleProductMethod env r id) := by
  obtain ⟨hlen, seg, hseg, hid⟩ := h
  have hpos := split_products_length_pos r.Path
  have hidx := indexAt_last _ hpos
  have hrest : ¬ ((strings_Split r.Path "products/").drop 1).length > 1 := by
    simp only [List.length_drop]; omega
  simp only [handleProduct, productsPath_slash, sliceFrom1, if_pos hpos, if_neg hrest, hidx, hseg,
    hid]

/-- A decimal digit character has the value it was made from. -/
theorem digitVal_digitChar (m : Nat) (h : m < 10) : digitVal (Nat.digitChar m) = some m := by
  interval_cases m <;> rfl

/-- The digit loop of `Nat.repr` puts the decimal digits of a positive number,
most significant first, before the digits already produced. -/
theorem toDigitsCore_eq_digits :
    ∀ (fuel n : Nat) (ds : List Char), 0 < n → n < fuel →
      Nat.toDigitsCore 10 fuel n ds = ((Nat.digits 10 n).reverse.map Nat.digitChar) ++ ds
  | 0, _, _, _, h => absurd h (Nat.not_lt_zero _)
  | fuel + 1, n, ds, hpos, hlt => by
    have hd : Nat.digits 10 n = (n % 10) :: Nat.digits 10 (n / 10) :=
      Nat.digits_def' (by decide) hpos
    by_cases h0 : n / 10 = 0
    · simp [Nat.toDigitsCore, h0, hd]
    · have hlt2 : n / 10 < fuel := by omega
      have ih := toDigitsCore_eq_digits fuel (n / 10) (Nat.digitChar (n % 10) :: ds)
        (Nat.pos_of_ne_zero h0) hlt2
      simp [Nat.toDigitsCore, h0, hd, ih]

/-- The characters of `Nat.repr n` for positive `n`. -/
theorem repr_data (n : Nat) (h : 0 < n) :
    (Nat.repr n).data = (Nat.digits 10 n).reverse.map Nat.digitChar := by
  simp [Nat.repr, Nat.toDigits, List.asString, toDigitsCore_eq_digits (n + 1) n [] h (by omega)]

/-- Reading digits one more digit to the right. -/
theorem parseDigits_snoc (ds : List Char) (d : Nat) (hd : d < 10) :
    ∀ (k v : Nat), parseDigits ds k = some v →
      parseDigits (ds ++ [Nat.digitChar d]) k = some (v * 10 + d) := by
  induction ds with
  | nil =>
    intro k v h
    simp only [parseDigits, Option.some.injEq] at h
    simp [parseDigits, digitVal_digitChar d hd, h]
  | cons c cs ih =>
    intro k v h
    simp only [parseDigits, List.cons_append] at h ⊢
    cases hc : digitVal c with
    | none => simp [hc] at h
    | some x =>
      simp only [hc] at h ⊢
      exact ih _ _ h

/-- The digit loop of `strconv.Atoi` reads the decimal digits of `n` back as `n`. -/
theorem parseDigits_digits :
    ∀ (fuel n : Nat), n < fuel →
      parseDigits ((Nat.digits 10 n).reverse.map Nat.digitChar) 0 = some n
  | 0, _, h => absurd h (Nat.not_lt_zero _)
  | fuel + 1, n, hlt => by
    by_cases hn : n = 0
    · subst hn; simp [parseDigits]
    · have hpos : 0 < n := Nat.pos_of_ne_zero hn
      have hd : Nat.digits 10 n = (n % 10) :: Nat.digits 10 (n / 10) :=
        Nat.digits_def' (by decide) hpos
      have ih := parseDigits_digits fuel (n / 10) (by omega)
      have h := parseDigits_snoc _ (n % 10) (Nat.mod_lt _ (by decide)) 0 (n / 10) ih
      rw [hd]
      simp only [List.reverse_cons, List.map_append, List.map_cons, List.map_nil]
      rw [h]
      congr 1
      omega

/-- The digit loop of `strconv.Atoi` reads `Nat.repr n` back as `n`. -/
theorem parseDigits_repr (n : Nat) : parseDigits (Nat.repr n).data 0 = some n := by
  by_cases hn : n = 0
  · subst hn; rfl
  · rw [repr_data n (Nat.pos_of_ne_zero hn)]
    exact parseDigits_digits (n + 1) n (by omega)

/-- The text `Nat.repr n` is not empty and does not start with a sign. -/
theorem repr_data_cons (n : Nat) :
    ∃ c cs, (Nat.repr n).data = c :: cs ∧ c ≠ '-' ∧ c ≠ '+' := by
  have h := parseDigits_repr n
  cases hds : (Nat.repr n).data with
  | nil =>
    exfalso
    by_cases hn : n = 0
    · subst hn; simp [Nat.repr, Nat.toDigits, Nat.toDigitsCore, List.asString] at hds
    · have := repr_data n (Nat.pos_of_ne_zero hn)
      rw [hds] at this
      have hd : Nat.digits 10 n = (n % 10) :: Nat.digits 10 (n / 10) :=
        Nat.digits_def' (by decide) (Nat.pos_of_ne_zero hn)
      rw [hd] at this
      simp at this
  | cons c cs =>
    refine ⟨c, cs, rfl, ?_, ?_⟩
    · rintro rfl
      rw [hds] at h
      simp [parseDigits, digitVal] at h
    · rintro rfl
      rw [hds] at h
      simp [parseDigits, digitVal] at h

/-- The text `fmt_d n` is read back by `strconv.Atoi` as `n`, for every `n` in
the range of a 64-bit `int`. -/
theorem strconv_Atoi_fmt_d (n : Int) (hlo : -(2 : Int) ^ 63 ≤ n) (hhi : n < (2 : Int) ^ 63) :
    strconv_Atoi (fmt_d n) = .ok n := by
  obtain ⟨c, cs, hds, hc1, hc2⟩ := repr_data_cons n.natAbs
  have hp := parseDigits_repr n.natAbs
  by_cases hneg : n < 0
  · have hdata : (fmt_d n).data = '-' :: (Nat.repr n.natAbs).data := by
      simp [fmt_d, hneg]
    have hr : ¬ n.natAbs > 2 ^ 63 := by omega
    have hv : -((n.natAbs : Nat) : Int) = n := by omega
    rw [hds] at hp
    simp only [strconv_Atoi, hdata, hds, hp, if_true, if_neg hr, hv]
  · have hdata : (fmt_d n).data = (Nat.repr n.natAbs).data := by
      simp [fmt_d, hneg]
    have hr : ¬ n.natAbs ≥ 2 ^ 63 := by omega
    have hv : ((n.natAbs : Nat) : Int) = n := by omega
    rw [hds] at hp
    simp only [strconv_Atoi, hdata, hds, hp, if_neg hc1, if_neg hc2, if_neg hr, hv]
    simp

/-- The characters of `fmt_d n` for `n` other than 0: a minus sign when `n` is
negative, then the decimal digits of its absolute value, most significant
first. -/
theorem fmt_d_data (n : Int) (hn : n ≠ 0) :
    (fmt_d n).data =
      (if n < 0 then ['-'] else []) ++ (Nat.digits 10 n.natAbs).reverse.map Nat.digitChar := by
  have hpos : 0 < n.natAbs := by omega
  by_cases hneg : n < 0
  · simp [fmt_d, hneg, repr_data n.natAbs hpos]
  · simp [fmt_d, hneg, repr_data n.natAbs hpos]

/-! ## Theorems -/

/-- C10: path parsing in `handleProduct` is total. For every path, splitting on
`products/` yields at least one part, so `urlPathSegments[1:]` and
`urlPathSegments[len-1]` are in range, and the handler never panics; a path
that does not contain `products/` is a single part and is handed whole to
`strconv.Atoi`. -/
theorem handleProduct_path_parsing_total :
    (∀ path : String,
        1 ≤ (strings_Split path (productsPath ++ "/")).length ∧
        (sliceFrom1 (strings_Split path (productsPath ++ "/"))).isSome = true ∧
        (indexAt (strings_Split path (productsPath ++ "/"))
          (((strings_Split path (productsPath ++ "/")).length : Int) - 1)).isSome = true) ∧
    (∀ (env : Env) (r : Request), (handleProduct env r).isSome = true) ∧
    (∀ path : String, ¬ ("products/" : String).data <:+: path.data →
        strings_Split path (productsPath ++ "/") = [path] ∧
        indexAt (strings_Split path (productsPath ++ "/"))
          (((strings_Split path (productsPath ++ "/")).length : Int) - 1) = some path ∧
        ∀ (env : Env) (method body : String),
          handleProduct env ⟨method, path, body⟩ =
            match strconv_Atoi path with
            | .error _ => some ⟨ResponseWriter.fresh.WriteHeader 404, [], false⟩
            | .ok productID => some (handleProductMethod env ⟨method, path, body⟩ productID)) := by
  refine ⟨?_, ?_, ?_⟩
  · intro path
    have hpos := split_products_length_pos path
    have hidx := indexAt_last _ hpos
    rw [productsPath_slash]
    refine ⟨hpos, by simp [sliceFrom1, hpos], ?_⟩
    rw [hidx]
    cases hxs : strings_Split path "products/" with
    | nil => rw [hxs] at hpos; simp at hpos
    | cons x xs => simp [List.getLast?_cons]
  · intro env r
    have hpos := split_products_length_pos r.Path
    have hidx := indexAt_last _ hpos
    simp only [handleProduct, productsPath_slash, sliceFrom1, if_pos hpos, hidx]
    cases hxs : strings_Split r.Path "products/" with
    | nil => rw [hxs] at hpos; simp at hpos
    | cons x xs =>
      simp only [List.getLast?_cons]
      split
      · rfl
      · split <;> rfl
  · intro path hno
    have hsplit : strings_Split path "products/" = [path] := by
      have h : ¬ ("products/" : String).data = [] := by decide
      simp only [strings_Split, if_neg h]
      rw [splitAux_no_sep _ _ _ hno]
      simp
    rw [productsPath_slash]
    refine ⟨hsplit, by rw [hsplit]; rfl, ?_⟩
    intro env method body
    simp only [handleProduct, productsPath_slash, hsplit]
    rfl

/-- Witness for C10 on the path `/api/17`, which does not contain `products/`. -/
theorem handleProduct_path_parsing_total_witness :
    ¬ ("products/" : String).data <:+: ("/api/17" : String).data ∧
    strings_Split "/api/17" (productsPath ++ "/") = ["/api/17"] :=
  ⟨by decide, (handleProduct_path_parsing_total.2.2 "/api/17" (by decide)).1⟩

/-- C3 (as amended): for every request to `handleProduct`, whatever its method,
a path that splits on `products/` into more than two parts is answered 400, and
a path of at most two parts whose last part `strconv.Atoi` rejects is answered
404; in both cases the body is empty and no repository operation is invoked and
no statement issued. -/
theorem handleProduct_rejects_bad_paths (env : Env) (r : Request) :
    (2 < (strings_Split r.Path "products/").length →
      handleProduct env r = some ⟨⟨some 400, ""⟩, [], false⟩) ∧
    ((strings_Split r.Path "products/").length ≤ 2 →
      ∀ (seg : String) (e : GoError),
        (strings_Split r.Path "products/").getLast? = some seg →
        strconv_Atoi seg = .error e →
        handleProduct env r = some ⟨⟨some 404, ""⟩, [], false⟩) := by
  have hpos := split_products_length_pos r.Path
  have hidx := indexAt_last _ hpos
  constructor
  · intro hlen
    have hrest : ((strings_Split r.Path "products/").drop 1).length > 1 := by
      simp only [List.length_drop]; omega
    simp only [handleProduct, productsPath_slash, sliceFrom1, if_pos hpos, if_pos hrest]
    rfl
  · intro hlen seg e hseg herr
    have hrest : ¬ ((strings_Split r.Path "products/").drop 1).length > 1 := by
      simp only [List.length_drop]; omega
    simp only [handleProduct, productsPath_slash, sliceFrom1, if_pos hpos, if_neg hrest, hidx,
      hseg, herr]
    rfl

/-- Witness for C3 (as amended) on `/api/products/products/5` and
`/api/products/abc`. -/
theorem handleProduct_rejects_bad_paths_witness :
    handleProduct okEnv ⟨"DELETE", "/api/products/products/5", ""⟩ =
      some ⟨⟨some 400, ""⟩, [], false⟩ ∧
    handleProduct okEnv ⟨"DELETE", "/api/products/abc", ""⟩ =
      some ⟨⟨some 404, ""⟩, [], false⟩ :=
  ⟨(handleProduct_rejects_bad_paths okEnv ⟨"DELETE", "/api/products/products/5", ""⟩).1
      (by decide),
   (handleProduct_rejects_bad_paths okEnv ⟨"DELETE", "/api/products/abc", ""⟩).2
      (by decide) "abc" (GoError.msg "strconv.Atoi: invalid syntax") (by decide) rfl⟩

/-- C3 as stated fails: `/api/products/abc` has a non-numeric part after the
prefix and is answered 404, not 400; `/api/products/products/5` splits into
three parts and is answered 400, not 404. -/
theorem handleProduct_status_counterexample :
    (strconv_Atoi "abc" = .error (GoError.msg "strconv.Atoi: invalid syntax") ∧
      (handleProduct okEnv ⟨"GET", "/api/products/abc", ""⟩).map Outcome.status = some 404 ∧
      (handleProduct okEnv ⟨"GET", "/api/products/abc", ""⟩).map Outcome.status ≠ some 400) ∧
    ((strings_Split "/api/products/products/5" "products/").length = 3 ∧
      (handleProduct okEnv ⟨"GET", "/api/products/products/5", ""⟩).map Outcome.status
        = some 400 ∧
      (handleProduct okEnv ⟨"GET", "/api/products/products/5", ""⟩).map Outcome.status
        ≠ some 404) :=
  ⟨⟨rfl, by decide, by decide⟩, ⟨by decide, by decide, by decide⟩⟩

/-- C4: for every PUT to an item path with numeric id, if the body decodes to a
product whose ProductID differs from the path id, or does not decode at all,
the response is 400 with an empty body and the handler invokes no repository
operation (in particular not `updateProduct`) and issues no statement. -/
theorem handleProduct_put_mismatch (env : Env) (r : Request) (id : Int)
    (hm : r.Method = "PUT") (hp : itemPath r.Path id) :
    (∀ product : Product, env.Decode r.Body = .ok product → product.ProductID ≠ id →
      ∃ o, handleProduct env r = some o ∧ o.status = 400 ∧ o.w.body = "" ∧ o.trace = [] ∧
        callsOf o.trace = [] ∧ stmtsOf o.trace = []) ∧
    (∀ e : GoError, env.Decode r.Body = .error e →
      ∃ o, handleProduct env r = some o ∧ o.status = 400 ∧ o.w.body = "" ∧ o.trace = [] ∧
        callsOf o.trace = [] ∧ stmtsOf o.trace = []) := by
  rw [handleProduct_of_itemPath env r id hp]
  constructor
  · intro product hd hne
    refine ⟨⟨⟨some 400, ""⟩, [], false⟩, ?_, rfl, rfl, rfl, rfl, rfl⟩
    simp [handleProductMethod, hm, hd, hne, ResponseWriter.WriteHeader, ResponseWriter.fresh]
  · intro e hd
    refine ⟨⟨⟨some 400, ""⟩, [], false⟩, ?_, rfl, rfl, rfl, rfl, rfl⟩
    simp [handleProductMethod, hm, hd, ResponseWriter.WriteHeader, ResponseWriter.fresh]

/-- Witness for C4: PUT `/api/products/5` with a body whose productId is 7, and
with a body that does not decode. -/
theorem handleProduct_put_mismatch_witness :
    (∃ o, handleProduct okEnv ⟨"PUT", "/api/products/5", "b"⟩ = some o ∧ o.status = 400 ∧
      o.w.body = "" ∧ o.trace = [] ∧ callsOf o.trace = [] ∧ stmtsOf o.trace = []) ∧
    (∃ o, handleProduct badJsonEnv ⟨"PUT", "/api/products/5", "b"⟩ = some o ∧ o.status = 400 ∧
      o.w.body = "" ∧ o.trace = [] ∧ callsOf o.trace = [] ∧ stmtsOf o.trace = []) :=
  ⟨(handleProduct_put_mismatch okEnv ⟨"PUT", "/api/products/5", "b"⟩ 5 rfl
      ⟨by decide, "5", by decide, rfl⟩).1 ⟨7, "Acme", "SKU-7", "0007", 250, 1, "Gadget"⟩ rfl
      (by decide),
   (handleProduct_put_mismatch badJsonEnv ⟨"PUT", "/api/products/5", "b"⟩ 5 rfl
      ⟨by decide, "5", by decide, rfl⟩).2 (GoError.msg "invalid character") rfl⟩

/-- C5: `updateProduct` on a product with ProductID 0 returns the validation
error and issues no statement, whatever the store and the other fields; on a
product with a non-zero ProductID it issues exactly one statement: the text
`UPDATE products SET ... WHERE productId=$7` of the source, with placeholders
`$1` to `$7`, whose first six arguments are the six other fields and whose
seventh, the key matched by `WHERE productId=$7`, is the ProductID; and it
returns exactly the error the store reports for that statement (an error iff
the store reports one). -/
theorem updateProduct_contract (db : DB) (product : Product) :
    (product.ProductID = 0 →
      (updateProduct db product).1 = some (GoError.msg "product has invalid ID") ∧
      stmtsOf (updateProduct db product).2 = []) ∧
    (product.ProductID ≠ 0 →
      stmtsOf (updateProduct db product).2 = [updateProductStmt product] ∧
      stmtsOf (updateProduct db product).2 =
        [⟨3, "UPDATE products SET \n\t\tmanufacturer=$1, \n\t\tsku=$2, \n\t\tupc=$3, \n\t\tpricePerUnit=CAST($4 AS DECIMAL(13,2)), \n\t\tquantityOnHand=$5, \n\t\tproductName=$6\n\t\tWHERE productId=$7",
          [Arg.str product.Manufacturer, Arg.str product.Sku, Arg.str product.Upc,
           Arg.int product.PricePerUnit, Arg.int product.QuantityOnHand,
           Arg.str product.ProductName, Arg.int product.ProductID]⟩] ∧
      ("UPDATE products SET ".data <+: (updateProductStmt product).query.data) ∧
      ("WHERE productId=$7".data <:+ (updateProductStmt product).query.data) ∧
      placeholders (updateProductStmt product).query = [1, 2, 3, 4, 5, 6, 7] ∧
      (updateProductStmt product).args.get? 6 = some (Arg.int product.ProductID) ∧
      (updateProductStmt product).args =
        [Arg.str product.Manufacturer, Arg.str product.Sku, Arg.str product.Upc,
         Arg.int product.PricePerUnit, Arg.int product.QuantityOnHand,
         Arg.str product.ProductName, Arg.int product.ProductID] ∧
      (updateProduct db product).1 = db.ExecContext (updateProductStmt product) ∧
      ((updateProduct db product).1 ≠ none ↔
        db.ExecContext (updateProductStmt product) ≠ none)) := by
  constructor
  · intro h0
    simp [updateProduct, h0, stmtsOf]
  · intro hne
    have hres : (updateProduct db product).1 = db.ExecContext (updateProductStmt product) := by
      simp only [updateProduct, if_neg hne]
      cases db.ExecContext (updateProductStmt product) <;> rfl
    have htr : stmtsOf (updateProduct db product).2 = [updateProductStmt product] := by
      simp only [updateProduct, if_neg hne]
      cases db.ExecContext (updateProductStmt product) <;> rfl
    have hq : (updateProductStmt product).query = "UPDATE products SET \n\t\tmanufacturer=$1, \n\t\tsku=$2, \n\t\tupc=$3, \n\t\tpricePerUnit=CAST($4 AS DECIMAL(13,2)), \n\t\tquantityOnHand=$5, \n\t\tproductName=$6\n\t\tWHERE productId=$7" := rfl
    refine ⟨htr, htr, ?_, ?_, ?_, rfl, rfl, hres, by rw [hres]⟩
    · rw [hq]; decide
    · rw [hq]; decide
    · rw [hq]; decide

/-- Witness for C5: the zero product, and `sampleProduct` (ProductID 5), against
the store that rejects every statement. -/
theorem updateProduct_contract_witness :
    ((updateProduct brokenRowsDB Product.zero).1 = some (GoError.msg "product has invalid ID") ∧
      stmtsOf (updateProduct brokenRowsDB Product.zero).2 = []) ∧
    stmtsOf (updateProduct brokenRowsDB sampleProduct).2 =
      [⟨3, "UPDATE products SET \n\t\tmanufacturer=$1, \n\t\tsku=$2, \n\t\tupc=$3, \n\t\tpricePerUnit=CAST($4 AS DECIMAL(13,2)), \n\t\tquantityOnHand=$5, \n\t\tproductName=$6\n\t\tWHERE productId=$7",
        [Arg.str "Acme", Arg.str "SKU-5", Arg.str "0005", Arg.int 1999, Arg.int 3,
         Arg.str "Widget", Arg.int 5]⟩] ∧
    (updateProduct brokenRowsDB sampleProduct).1 =
      some (GoError.msg "context deadline exceeded") :=
  ⟨(updateProduct_contract brokenRowsDB Product.zero).1 rfl,
   ((updateProduct_contract brokenRowsDB sampleProduct).2 (by decide)).2.1,
   ((updateProduct_contract brokenRowsDB sampleProduct).2 (by decide)).2.2.2.2.2.2.2.1⟩

/-- C6: for every POST to `handleProducts`: if the body does not decode the
response is 400 and `insertProduct` is not called (no event at all); otherwise
`insertProduct` is called exactly once (one call, one statement, the INSERT of
the source with the six fields as arguments), the response is 500 with an empty
body when it returns an error or the ID 0, and otherwise the status is 201 and
the body written is `{"productId":<id>}`, where `<id>` is the decimal text of
the ID `insertProduct` returned: a minus sign if it is negative followed by the
decimal digits of its absolute value, a text that `strconv.Atoi` reads back as
that same ID; and `insertProduct` reports the no-returned-row case as
(0, no error). -/
theorem handleProducts_post_contract (env : Env) (r : Request) (hm : r.Method = "POST") :
    (∀ e : GoError, env.Decode r.Body = .error e →
      (handleProducts env r).status = 400 ∧ (handleProducts env r).w.body = "" ∧
      (handleProducts env r).trace = []) ∧
    (∀ product : Product, env.Decode r.Body = .ok product →
      (handleProducts env r).trace =
        [Event.call (RepoOp.insertProduct product), Event.stmt (insertProductStmt product)] ∧
      callsOf (handleProducts env r).trace = [RepoOp.insertProduct product] ∧
      stmtsOf (handleProducts env r).trace =
        [⟨3, "INSERT INTO products  \n\t(manufacturer, \n\tsku, \n\tupc, \n\tpricePerUnit, \n\tquantityOnHand, \n\tproductName) \n\tVALUES ($1, $2, $3, $4, $5, $6) \n\t\tRETURNING productId",
          [Arg.str product.Manufacturer, Arg.str product.Sku, Arg.str product.Upc,
           Arg.int product.PricePerUnit, Arg.int product.QuantityOnHand,
           Arg.str product.ProductName]⟩] ∧
      (((insertProduct env.db product).1.2 ≠ none ∨ (insertProduct env.db product).1.1 = 0) →
        (handleProducts env r).status = 500 ∧ (handleProducts env r).w.body = "") ∧
      ((insertProduct env.db product).1.2 = none → (insertProduct env.db product).1.1 ≠ 0 →
        (handleProducts env r).status = 201 ∧
        (env.writeErr = none →
          (handleProducts env r).w.body =
            "\x7b\"productId\":" ++ fmt_d (insertProduct env.db product).1.1 ++ "\x7d") ∧
        (fmt_d (insertProduct env.db product).1.1).data =
          (if (insertProduct env.db product).1.1 < 0 then ['-'] else []) ++
            (Nat.digits 10 (insertProduct env.db product).1.1.natAbs).reverse.map
              Nat.digitChar ∧
        (-(2 : Int) ^ 63 ≤ (insertProduct env.db product).1.1 →
          (insertProduct env.db product).1.1 < (2 : Int) ^ 63 →
          strconv_Atoi (fmt_d (insertProduct env.db product).1.1) =
            .ok (insertProduct env.db product).1.1))) ∧
    (∀ product : Product,
      env.db.QueryRowScanInt (insertProductStmt product) = .error GoError.ErrNoRows →
      (insertProduct env.db product).1 = (0, none)) := by
  have htr : ∀ product : Product, (insertProduct env.db product).2 =
      [Event.call (RepoOp.insertProduct product), Event.stmt (insertProductStmt product)] := by
    intro product
    simp only [insertProduct]
    cases env.db.QueryRowScanInt (insertProductStmt product) with
    | error err => by_cases he : err = GoError.ErrNoRows <;> simp [he]
    | ok v => rfl
  refine ⟨?_, ?_, ?_⟩
  · intro e hd
    simp [handleProducts, hm, hd, Outcome.status, ResponseWriter.WriteHeader,
      ResponseWriter.fresh]
  · intro product hd
    have hcases : (handleProducts env r) =
        if (insertProduct env.db product).1.2 ≠ none ∨ (insertProduct env.db product).1.1 = 0
        then ⟨⟨some 500, ""⟩, (insertProduct env.db product).2, false⟩
        else
          match env.writeErr with
          | none => ⟨⟨some 201,
              "" ++ ("\x7b\"productId\":" ++ fmt_d (insertProduct env.db product).1.1 ++ "\x7d")⟩,
              (insertProduct env.db product).2, false⟩
          | some _ => ⟨⟨some 201, ""⟩, (insertProduct env.db product).2, false⟩ := by
      simp only [handleProducts, hm, hd]
      simp only [show ¬ ("POST" = "GET") by decide, if_false, if_true]
      split
      · rfl
      · cases env.writeErr <;> rfl
    have htrace : (handleProducts env r).trace =
        [Event.call (RepoOp.insertProduct product), Event.stmt (insertProductStmt product)] := by
      rw [hcases]
      split
      · exact htr product
      · split <;> exact htr product
    refine ⟨htrace, ?_, ?_, ?_, ?_⟩
    · rw [htrace]; rfl
    · rw [htrace]; rfl
    · intro hfail
      rw [hcases, if_pos hfail]
      exact ⟨rfl, rfl⟩
    · intro hnone hid
      have hok : ¬ ((insertProduct env.db product).1.2 ≠ none ∨
          (insertProduct env.db product).1.1 = 0) := by
        rintro (h | h)
        · exact h hnone
        · exact hid h
      rw [hcases, if_neg hok]
      refine ⟨?_, ?_, fmt_d_data _ hid, strconv_Atoi_fmt_d _⟩
      · split <;> rfl
      · intro hw
        rw [hw]
        simp
  · intro product hrow
    simp [insertProduct, hrow]

/-- Witness for C6: a POST whose body does not decode (400), a POST whose body
decodes and whose insert is assigned the ID 8 (201 with the body
`{"productId":8}`), and a POST whose insert returns no row, which
`insertProduct` reports as (0, no error) (500). -/
theorem handleProducts_post_contract_witness :
    ((handleProducts badJsonEnv ⟨"POST", "/api/products", "b"⟩).status = 400 ∧
      (handleProducts badJsonEnv ⟨"POST", "/api/products", "b"⟩).w.body = "" ∧
      (handleProducts badJsonEnv ⟨"POST", "/api/products", "b"⟩).trace = []) ∧
    (handleProducts okEnv ⟨"POST", "/api/products", "b"⟩).status = 201 ∧
    (handleProducts okEnv ⟨"POST", "/api/products", "b"⟩).w.body = "\x7b\"productId\":8\x7d" ∧
    strconv_Atoi "8" = .ok 8 ∧
    ((handleProducts emptyEnv ⟨"POST", "/api/products", "b"⟩).status = 500 ∧
      (handleProducts emptyEnv ⟨"POST", "/api/products", "b"⟩).w.body = "") ∧
    (insertProduct emptyEnv.db ⟨7, "Acme", "SKU-7", "0007", 250, 1, "Gadget"⟩).1 = (0, none) :=
  ⟨(handleProducts_post_contract badJsonEnv ⟨"POST", "/api/products", "b"⟩ rfl).1
      (GoError.msg "invalid character") rfl,
   (((handleProducts_post_contract okEnv ⟨"POST", "/api/products", "b"⟩ rfl).2.1
      ⟨7, "Acme", "SKU-7", "0007", 250, 1, "Gadget"⟩ rfl).2.2.2.2 rfl (by decide)).1,
   Eq.trans ((((handleProducts_post_contract okEnv ⟨"POST", "/api/products", "b"⟩ rfl).2.1
      ⟨7, "Acme", "SKU-7", "0007", 250, 1, "Gadget"⟩ rfl).2.2.2.2 rfl (by decide)).2.1 rfl)
      (by decide),
   (((handleProducts_post_contract okEnv ⟨"POST", "/api/products", "b"⟩ rfl).2.1
      ⟨7, "Acme", "SKU-7", "0007", 250, 1, "Gadget"⟩ rfl).2.2.2.2 rfl (by decide)).2.2.2
      (by decide) (by decide),
   ((handleProducts_post_contract emptyEnv ⟨"POST", "/api/products", "b"⟩ rfl).2.1
      ⟨7, "Acme", "SKU-7", "0007", 250, 1, "Gadget"⟩ rfl).2.2.2.1 (Or.inr rfl),
   (handleProducts_post_contract emptyEnv ⟨"POST", "/api/products", "b"⟩ rfl).2.2
      ⟨7, "Acme", "SKU-7", "0007", 250, 1, "Gadget"⟩ rfl⟩

/-- C7: `getProduct` returns (no product, no error) exactly when the store
reports `sql.ErrNoRows`, (no product, that error) when the store reports any
other error, and (the scanned product, no error) otherwise; and for every GET
to an item path with numeric id, `handleProduct` answers these outcomes with
404, 500 and, once the product is encoded as JSON, 200 with that encoding as
the body. -/
theorem getProduct_outcomes (env : Env) (r : Request) (id : Int)
    (hm : r.Method = "GET") (hp : itemPath r.Path id) :
    (((getProduct env.db id).1 = (none, none) ↔
        env.db.QueryRowScanProduct (getProductStmt id) = .error GoError.ErrNoRows) ∧
      (∀ e : GoError, e ≠ GoError.ErrNoRows →
        env.db.QueryRowScanProduct (getProductStmt id) = .error e →
        (getProduct env.db id).1 = (none, some e)) ∧
      (∀ product : Product, env.db.QueryRowScanProduct (getProductStmt id) = .ok product →
        (getProduct env.db id).1 = (some product, none))) ∧
    ((getProduct env.db id).1 = (none, none) →
      ∃ o, handleProduct env r = some o ∧ o.status = 404 ∧ o.w.body = "") ∧
    (∀ e : GoError, (getProduct env.db id).1 = (none, some e) →
      ∃ o, handleProduct env r = some o ∧ o.status = 500 ∧ o.w.body = "") ∧
    (∀ (product : Product) (j : String), (getProduct env.db id).1 = (some product, none) →
      env.MarshalProduct product = .ok j →
      ∃ o, handleProduct env r = some o ∧ o.status = 200 ∧
        (env.writeErr = none → o.w.body = j ∧ o.fatal = false)) := by
  rw [handleProduct_of_itemPath env r id hp]
  refine ⟨⟨?_, ?_, ?_⟩, ?_, ?_, ?_⟩
  · simp only [getProduct]
    cases hq : env.db.QueryRowScanProduct (getProductStmt id) with
    | error err =>
      by_cases he : err = GoError.ErrNoRows
      · simp [he]
      · simp [he]
    | ok v => simp
  · intro e hne hq
    simp [getProduct, hq, hne]
  · intro product hq
    simp [getProduct, hq]
  · intro hg
    refine ⟨_, rfl, ?_, ?_⟩ <;>
      simp [handleProductMethod, hm, hg, Outcome.status, ResponseWriter.WriteHeader,
        ResponseWriter.fresh]
  · intro e hg
    refine ⟨_, rfl, ?_, ?_⟩ <;>
      simp [handleProductMethod, hm, hg, Outcome.status, ResponseWriter.WriteHeader,
        ResponseWriter.fresh]
  · intro product j hg hj
    refine ⟨_, rfl, ?_, ?_⟩
    · cases hw : env.writeErr <;>
        simp [handleProductMethod, hm, hg, hj, hw, Outcome.status, ResponseWriter.WriteHeader,
          ResponseWriter.Write, ResponseWriter.fresh]
    · intro hw
      simp [handleProductMethod, hm, hg, hj, hw, ResponseWriter.WriteHeader,
        ResponseWriter.Write, ResponseWriter.fresh]

/-- Witness for C7: GET `/api/products/5` against the store that finds
`sampleProduct` (200), against the store that reports `sql.ErrNoRows` (404) and
against the store whose query fails on an expired deadline (500). -/
theorem getProduct_outcomes_witness :
    (∃ o, handleProduct okEnv ⟨"GET", "/api/products/5", ""⟩ = some o ∧ o.status = 200 ∧
      (okEnv.writeErr = none → o.w.body = "P" ∧ o.fatal = false)) ∧
    (∃ o, handleProduct emptyEnv ⟨"GET", "/api/products/5", ""⟩ = some o ∧ o.status = 404 ∧
      o.w.body = "") ∧
    (∃ o, handleProduct brokenEnv ⟨"GET", "/api/products/5", ""⟩ = some o ∧ o.status = 500 ∧
      o.w.body = "") :=
  ⟨(getProduct_outcomes okEnv ⟨"GET", "/api/products/5", ""⟩ 5 rfl
      ⟨by decide, "5", by decide, rfl⟩).2.2.2 sampleProduct "P" rfl rfl,
   (getProduct_outcomes emptyEnv ⟨"GET", "/api/products/5", ""⟩ 5 rfl
      ⟨by decide, "5", by decide, rfl⟩).2.1 rfl,
   (getProduct_outcomes brokenEnv ⟨"GET", "/api/products/5", ""⟩ 5 rfl
      ⟨by decide, "5", by decide, rfl⟩).2.2.1 (GoError.msg "context deadline exceeded") rfl⟩

/-- C8: the collection handler answers every method other than GET, POST and
OPTIONS with 405, an empty body and no repository operation, and OPTIONS with
200, an empty body and no repository operation; the item handler does the same
on an item path with numeric id for every method other than GET, PUT, DELETE
and OPTIONS, respectively for OPTIONS. -/
theorem method_dispatch_contract (env : Env) (r : Request) :
    (r.Method ≠ "GET" → r.Method ≠ "POST" → r.Method ≠ "OPTIONS" →
      (handleProducts env r).status = 405 ∧ (handleProducts env r).w.body = "" ∧
      (handleProducts env r).trace = []) ∧
    (r.Method = "OPTIONS" →
      (handleProducts env r).status = 200 ∧ (handleProducts env r).w.body = "" ∧
      (handleProducts env r).trace = []) ∧
    (∀ id : Int, itemPath r.Path id →
      r.Method ≠ "GET" → r.Method ≠ "PUT" → r.Method ≠ "DELETE" → r.Method ≠ "OPTIONS" →
      ∃ o, handleProduct env r = some o ∧ o.status = 405 ∧ o.w.body = "" ∧ o.trace = []) ∧
    (∀ id : Int, itemPath r.Path id → r.Method = "OPTIONS" →
      ∃ o, handleProduct env r = some o ∧ o.status = 200 ∧ o.w.body = "" ∧ o.trace = []) := by
  refine ⟨?_, ?_, ?_, ?_⟩
  · intro h1 h2 h3
    simp [handleProducts, h1, h2, h3, Outcome.status, ResponseWriter.WriteHeader,
      ResponseWriter.fresh]
  · intro h
    simp [handleProducts, h, Outcome.status, ResponseWriter.fresh]
  · intro id hp h1 h2 h3 h4
    rw [handleProduct_of_itemPath env r id hp]
    refine ⟨_, rfl, ?_, ?_, ?_⟩ <;>
      simp [handleProductMethod, h1, h2, h3, h4, Outcome.status, ResponseWriter.WriteHeader,
        ResponseWriter.fresh]
  · intro id hp h
    rw [handleProduct_of_itemPath env r id hp]
    refine ⟨_, rfl, ?_, ?_, ?_⟩ <;>
      simp [handleProductMethod, h, Outcome.status, ResponseWriter.fresh]

/-- Witness for C8: PATCH and OPTIONS on `/api/products` and on
`/api/products/5`. -/
theorem method_dispatch_contract_witness :
    ((handleProducts okEnv ⟨"PATCH", "/api/products", ""⟩).status = 405 ∧
      (handleProducts okEnv ⟨"PATCH", "/api/products", ""⟩).w.body = "" ∧
      (handleProducts okEnv ⟨"PATCH", "/api/products", ""⟩).trace = []) ∧
    ((handleProducts okEnv ⟨"OPTIONS", "/api/products", ""⟩).status = 200 ∧
      (handleProducts okEnv ⟨"OPTIONS", "/api/products", ""⟩).w.body = "" ∧
      (handleProducts okEnv ⟨"OPTIONS", "/api/products", ""⟩).trace = []) ∧
    (∃ o, handleProduct okEnv ⟨"PATCH", "/api/products/5", ""⟩ = some o ∧ o.status = 405 ∧
      o.w.body = "" ∧ o.trace = []) ∧
    (∃ o, handleProduct okEnv ⟨"OPTIONS", "/api/products/5", ""⟩ = some o ∧ o.status = 200 ∧
      o.w.body = "" ∧ o.trace = []) :=
  ⟨(method_dispatch_contract okEnv ⟨"PATCH", "/api/products", ""⟩).1
      (by decide) (by decide) (by decide),
   (method_dispatch_contract okEnv ⟨"OPTIONS", "/api/products", ""⟩).2.1 rfl,
   (method_dispatch_contract okEnv ⟨"PATCH", "/api/products/5", ""⟩).2.2.1 5
      ⟨by decide, "5", by decide, rfl⟩ (by decide) (by decide) (by decide) (by decide),
   (method_dispatch_contract okEnv ⟨"OPTIONS", "/api/products/5", ""⟩).2.2.2 5
      ⟨by decide, "5", by decide, rfl⟩ rfl⟩

/-- C2: for every filter, the text `searchForProductData` appends after `WHERE `
is the clauses of the non-empty fields in the order name, manufacturer, SKU,
joined by ` AND ` (nothing before the first or after the last); the number of
bound arguments is the number of non-empty fields; this is the one statement the
operation hands to the store; and for the all-empty filter nothing follows
`WHERE ` and no argument is bound. -/
theorem searchStmt_clauses (db : DB) (productFilter : ProductReportFilter) :
    (searchStmt productFilter).query =
      searchHead ++ String.intercalate " AND " (specClauses productFilter) ∧
    (searchStmt productFilter).args.length = nonEmptyFields productFilter ∧
    stmtsOf (searchForProductData db productFilter).2 = [searchStmt productFilter] ∧
    (searchStmt ⟨"", "", ""⟩).query = searchHead ∧
    (searchStmt ⟨"", "", ""⟩).args = [] := by
  have hstmt : stmtsOf (searchForProductData db productFilter).2 = [searchStmt productFilter] := by
    simp only [searchForProductData]
    cases db.QueryContext (searchStmt productFilter) <;> rfl
  refine ⟨?_, ?_, hstmt, by decide, by decide⟩
  · by_cases h1 : productFilter.NameFilter = "" <;>
    by_cases h2 : productFilter.ManufacturerFilter = "" <;>
    by_cases h3 : productFilter.SKUFilter = "" <;>
    simp [searchStmt, searchStepName, searchStepManufacturer, searchStepSKU, specClauses,
      h1, h2, h3, String.intercalate, String.intercalate.go, String.append_assoc]
  · by_cases h1 : productFilter.NameFilter = "" <;>
    by_cases h2 : productFilter.ManufacturerFilter = "" <;>
    by_cases h3 : productFilter.SKUFilter = "" <;>
    simp [searchStmt, searchStepName, searchStepManufacturer, searchStepSKU, nonEmptyFields,
      h1, h2, h3]

set_option maxRecDepth 20000

/-- C1 fails on the code: with only ManufacturerFilter set the statement tests
`manufacturer ILIKE $2` while a single argument is bound, so placeholder 2
exceeds the number of bound arguments; with NameFilter and SKUFilter set the
statement uses `$1` and `$3` with two arguments bound; with ManufacturerFilter
and SKUFilter set, `$2` is bound to the SKU pattern. With only NameFilter set
the binding is as the claim says. -/
theorem searchStmt_placeholder_mismatch :
    (placeholders (searchStmt ⟨"", "Acme", ""⟩).query = [2] ∧
      (searchStmt ⟨"", "Acme", ""⟩).args = [Arg.str "%acme%"]) ∧
    (placeholders (searchStmt ⟨"Widget", "", "S1"⟩).query = [1, 3] ∧
      (searchStmt ⟨"Widget", "", "S1"⟩).args = [Arg.str "%widget%", Arg.str "%s1%"]) ∧
    (placeholders (searchStmt ⟨"", "Acme", "S1"⟩).query = [2, 3] ∧
      (searchStmt ⟨"", "Acme", "S1"⟩).args = [Arg.str "%acme%", Arg.str "%s1%"]) ∧
    (placeholders (searchStmt ⟨"Widget", "", ""⟩).query = [1] ∧
      (searchStmt ⟨"Widget", "", ""⟩).args = [Arg.str "%widget%"]) := by
  refine ⟨⟨?_, ?_⟩, ⟨?_, ?_⟩, ⟨?_, ?_⟩, ⟨?_, ?_⟩⟩ <;> decide

/-- C9 fails on the code: against a store that accepts the query but whose one
row fails to scan and whose iteration ends on an expired deadline, each of
`getProductList`, `GetTopTenProducts` and `searchForProductData` returns a
product sequence (holding the zero product left by the failed scan) and a nil
error. -/
theorem multi_row_read_errors_dropped :
    brokenRowsDB.QueryContext getProductListStmt =
      .ok ⟨[⟨Product.zero, some (GoError.msg "sql: Scan error on column index 0")⟩],
           some (GoError.msg "context deadline exceeded")⟩ ∧
    (getProductList brokenRowsDB).1 = (some [Product.zero], none) ∧
    (GetTopTenProducts brokenRowsDB).1 = (some [Product.zero], none) ∧
    (searchForProductData brokenRowsDB ⟨"Widget", "", ""⟩).1 = (some [Product.zero], none) :=
  ⟨rfl, rfl, rfl, rfl⟩

end Services
